import Mathlib

/-!
Verification of the patient-management backend (`src/backend/server.py`).

The backend is a CRUD layer over a document store with three collections
(patients, tasks, contact logs).  We embed the data model as Lean
structures (the Pydantic models type every date as an ISO-8601 `String`,
so documents of a collection are uniform records), the store as lists,
and each endpoint as a pure function over the store.  Clock readings
(`datetime.now(...)` results) and the computed thirty-day bound are
passed as explicit `String` parameters; the uuid generator is modelled
by a formatting function over an abstract entropy value.

Store-operation semantics mirrored from MongoDB:
  - `find_one(filter)` / `update_one(filter, set)` act on the first
    matching document;
  - `$lte` on strings is byte-wise lexicographic comparison and, by type
    bracketing, never matches a `null` (absent/`None`) value;
  - `$ne` matches documents whose field differs from the value;
  - `$regex` matches when the pattern matches some substring of the
    field; option `"i"` makes the match case-insensitive; an invalid
    pattern makes the whole query fail (modelled as `Option.none`);
  - `count_documents(filter)` is the number of matching documents.
-/

namespace Server

/-! ## Generic list helpers (document-store primitives) -/

/-- Byte-wise lexicographic `≤` on character lists: the comparison MongoDB
applies for `$lte` on strings (identical to code-point order on ASCII). -/
def lexLe : List Char → List Char → Bool
  | [], _ => true
  | _ :: _, [] => false
  | a :: as, b :: bs => if a = b then lexLe as bs else decide (a < b)

/-- String form of `lexLe`, used for every `$lte` date comparison. -/
def strLe (a b : String) : Bool := lexLe a.toList b.toList

/-- Update the first element satisfying `pred` (MongoDB `update_one`). -/
def updateFirst (pred : α → Bool) (g : α → α) : List α → List α
  | [] => []
  | x :: xs => if pred x then g x :: xs else x :: updateFirst pred g xs

/-! ## Enumerations (`TaskStatus`, `TaskType`, `ContactOutcome`) -/

inductive TaskStatus
  | pending
  | in_progress
  | completed
  | failed
deriving DecidableEq

inductive TaskType
  | call_patient
  | request_paperwork
  | tan_renewal
  | billing_follow_up
  | medicaid_verification
deriving DecidableEq

inductive ContactOutcome
  | contacted
  | no_answer
  | busy
  | disconnected
  | left_message
deriving DecidableEq

/-! ## Data model (the Pydantic models of `server.py`) -/

structure Doctor where
  name : String
  phone : String
  fax : String
  address : Option String
deriving DecidableEq

structure Patient where
  id : String
  first_name : String
  last_name : String
  phone : String
  address : String
  height : Option String
  weight : Option String
  icd10_codes : List String
  doctor : Doctor
  current_tan : String
  tan_expiry_date : String
  medicaid_id : String
  medicaid_eligible : Bool
  last_billing_date : Option String
  products : List String
  notes : String
  created_at : String
  updated_at : String
deriving DecidableEq

structure PatientCreate where
  first_name : String
  last_name : String
  phone : String
  address : String
  height : Option String
  weight : Option String
  icd10_codes : List String
  doctor : Doctor
  current_tan : String
  tan_expiry_date : String
  medicaid_id : String
  medicaid_eligible : Bool
  products : List String
  notes : String
deriving DecidableEq

structure PatientUpdate where
  first_name : Option String
  last_name : Option String
  phone : Option String
  address : Option String
  height : Option String
  weight : Option String
  icd10_codes : Option (List String)
  doctor : Option Doctor
  current_tan : Option String
  tan_expiry_date : Option String
  medicaid_id : Option String
  medicaid_eligible : Option Bool
  last_billing_date : Option String
  products : Option (List String)
  notes : Option String
deriving DecidableEq

structure Task where
  id : String
  patient_id : String
  task_type : TaskType
  title : String
  description : String
  assigned_to : String
  status : TaskStatus
  due_date : Option String
  created_at : String
  completed_at : Option String
deriving DecidableEq

structure ContactLog where
  id : String
  patient_id : String
  contact_date : String
  outcome : ContactOutcome
  notes : String
  follow_up_needed : Bool
  follow_up_date : Option String
deriving DecidableEq

/-- The document store: the three collections used by `server.py`. -/
structure DB where
  patients : List Patient
  tasks : List Task
  contact_logs : List ContactLog
deriving DecidableEq

/-! ## Identifier provider (`str(uuid.uuid4())`) -/

/-- Lower-case hex digit of `n % 16`. -/
def hexChar (n : Nat) : Char := "0123456789abcdef".toList.getD (n % 16) '0'

/-- Fixed-width big-endian hex rendering. -/
def hexDigits : Nat → Nat → List Char
  | 0, _ => []
  | len + 1, n => hexDigits len (n / 16) ++ [hexChar n]

/-- Model of `str(uuid.uuid4())`: the canonical 8-4-4-4-12 hyphenated
hex form of a 128-bit value; the randomness (and the fixed version and
variant bits) is abstracted into the `Nat` argument. -/
def uuidStr (n : Nat) : String :=
  ⟨hexDigits 8 (n / 2 ^ 96) ++ '-' ::
    (hexDigits 4 (n / 2 ^ 80) ++ '-' ::
      (hexDigits 4 (n / 2 ^ 64) ++ '-' ::
        (hexDigits 4 (n / 2 ^ 48) ++ '-' :: hexDigits 12 n)))⟩

/-! ## Patient endpoints -/

/-- Builds `Patient(**patient_dict)` in `create_patient`: the input fields
plus generated id and creation/update timestamps (the two `default_factory`
clock reads are modelled by the same reading `now`); `last_billing_date`
is not in `PatientCreate` and defaults to `None`.  `prepare_for_mongo` is
the identity here since every date field is already an ISO string. -/
def patientOfCreate (data : PatientCreate) (genId now : String) : Patient :=
  { id := genId
    first_name := data.first_name
    last_name := data.last_name
    phone := data.phone
    address := data.address
    height := data.height
    weight := data.weight
    icd10_codes := data.icd10_codes
    doctor := data.doctor
    current_tan := data.current_tan
    tan_expiry_date := data.tan_expiry_date
    medicaid_id := data.medicaid_id
    medicaid_eligible := data.medicaid_eligible
    last_billing_date := none
    products := data.products
    notes := data.notes
    created_at := now
    updated_at := now }

/-- `POST /patients`: builds the entity and inserts it (`insert_one`
appends a document); returns the constructed entity. -/
def create_patient (data : PatientCreate) (entropy : Nat) (now : String)
    (db : DB) : Patient × DB :=
  let p := patientOfCreate data (uuidStr entropy) now
  (p, { db with patients := db.patients ++ [p] })

/-- `GET /patients/{id}`: `find_one({"id": id})`; `none` models the 404. -/
def get_patient (pid : String) (db : DB) : Option Patient :=
  db.patients.find? (fun p => decide (p.id = pid))

/-- The `$set` document of `update_patient`: the non-`None` fields of the
partial input (`{k: v for k, v in patient_update.dict().items() if v is
not None}`) merged onto the stored document, plus the refreshed
`updated_at`.  `id` and `created_at` are not in `PatientUpdate`, so they
are never touched. -/
def mergePatient (p : Patient) (u : PatientUpdate) (now : String) : Patient :=
  { id := p.id
    first_name := u.first_name.getD p.first_name
    last_name := u.last_name.getD p.last_name
    phone := u.phone.getD p.phone
    address := u.address.getD p.address
    height := match u.height with | some v => some v | none => p.height
    weight := match u.weight with | some v => some v | none => p.weight
    icd10_codes := u.icd10_codes.getD p.icd10_codes
    doctor := u.doctor.getD p.doctor
    current_tan := u.current_tan.getD p.current_tan
    tan_expiry_date := u.tan_expiry_date.getD p.tan_expiry_date
    medicaid_id := u.medicaid_id.getD p.medicaid_id
    medicaid_eligible := u.medicaid_eligible.getD p.medicaid_eligible
    last_billing_date :=
      match u.last_billing_date with | some v => some v | none => p.last_billing_date
    products := u.products.getD p.products
    notes := u.notes.getD p.notes
    created_at := p.created_at
    updated_at := now }

/-- `PUT /patients/{id}`: 404 (`none`) when no stored patient has the id;
otherwise `$set` the non-null fields on the first matching document and
return the document re-read from the store. -/
def update_patient (pid : String) (u : PatientUpdate) (now : String)
    (db : DB) : Option (Patient × DB) :=
  match db.patients.find? (fun p => decide (p.id = pid)) with
  | none => none
  | some _ =>
    let merged := updateFirst (fun p => decide (p.id = pid))
      (fun p => mergePatient p u now) db.patients
    let db2 : DB := { db with patients := merged }
    (db2.patients.find? (fun p => decide (p.id = pid))).map (fun q => (q, db2))

/-! ## Query builder: the `$regex` pattern fragment used by the search filter

`get_patients` passes the raw user text to MongoDB as a `$regex` pattern
with option `"i"`.  We model the pattern-language fragment of single
characters, `.`, character classes `[...]` and postfix `*` (outside a
class, an unescaped `]` is an ordinary character, as in PCRE); a pattern
outside this fragment, or an invalid one such as a leading `*`, parses to
`none`, which models the query failing at the store. -/

inductive RAtom
  | ch (c : Char)
  | dot
  | cls (cs : List Char)
deriving DecidableEq

/-- One pattern item: an atom, possibly starred. -/
structure RItem where
  atom : RAtom
  starred : Bool
deriving DecidableEq

/-- Case-folded character equality, for the `"i"` regex option. -/
def chEqCI (a b : Char) : Bool := decide (a.toLower = b.toLower)

/-- Does the atom match one character (case-insensitively)? -/
def atomMatches : RAtom → Char → Bool
  | RAtom.ch d, c => chEqCI d c
  | RAtom.dot, _ => true
  | RAtom.cls cs, c => cs.any (fun d => chEqCI d c)

/-- Fuel-indexed matcher: does the item sequence match some prefix of
`s`?  A starred item consumes zero or more matching characters; every
recursive call shrinks `items.length + s.length`, so the fuel supplied
by `matchesHere` is never exhausted. -/
def matchesHereF : Nat → List RItem → List Char → Bool
  | 0, _, _ => false
  | _ + 1, [], _ => true
  | f + 1, i :: is, [] => if i.starred then matchesHereF f is [] else false
  | f + 1, i :: is, c :: cs =>
    if i.starred then
      matchesHereF f is (c :: cs) || (atomMatches i.atom c && matchesHereF f (i :: is) cs)
    else
      atomMatches i.atom c && matchesHereF f is cs

/-- Does the item sequence match some prefix of `s`? -/
def matchesHere (items : List RItem) (s : List Char) : Bool :=
  matchesHereF (items.length + s.length + 1) items s

/-- Unanchored match, as MongoDB `$regex` applies a pattern: the item
sequence matches starting at some position of `s`. -/
def regexSearch (items : List RItem) (s : List Char) : Bool :=
  (List.range (s.length + 1)).any (fun k => matchesHere items (s.drop k))

/-- Fuel-indexed pattern parser (the fuel only bounds recursion depth;
`parseItems` supplies enough for the whole input). -/
def parseItemsF : Nat → List Char → Option (List RItem)
  | 0, _ => none
  | fuel + 1, l =>
    match l with
    | [] => some []
    | c :: rest =>
      if c = '*' then none
      else if c = '[' then
        let cs := rest.takeWhile (fun d => !decide (d = ']'))
        let r := rest.drop cs.length
        if r.head? = some ']' then
          if r.tail.head? = some '*' then
            (parseItemsF fuel r.tail.tail).map (fun items => ⟨RAtom.cls cs, true⟩ :: items)
          else (parseItemsF fuel r.tail).map (fun items => ⟨RAtom.cls cs, false⟩ :: items)
        else none
      else
        let a := if c = '.' then RAtom.dot else RAtom.ch c
        if rest.head? = some '*' then
          (parseItemsF fuel rest.tail).map (fun items => ⟨a, true⟩ :: items)
        else (parseItemsF fuel rest).map (fun items => ⟨a, false⟩ :: items)

/-- Parse a `$regex` pattern string; `none` models a failing query. -/
def parseItems (s : String) : Option (List RItem) :=
  parseItemsF (s.toList.length + 1) s.toList

/-! ## Patient list endpoint (`GET /patients`) -/

/-- Python truthiness of the optional `search` query parameter: `None`
and the empty string are falsy, so `if search:` skips the filter. -/
def truthyStr : Option String → Bool
  | some s => !decide (s = "")
  | none => false

/-- Python truthiness of an optional boolean query parameter: `None` and
`False` are both falsy. -/
def truthyBool : Option Bool → Bool
  | some b => b
  | none => false

/-- The `$or` of the three case-insensitive `$regex` clauses that
`get_patients` builds from the search text. -/
def searchMatches (items : List RItem) (p : Patient) : Bool :=
  regexSearch items p.first_name.toList || regexSearch items p.last_name.toList ||
    regexSearch items p.phone.toList

/-- The search clause of the query as a predicate: absent when `search`
is falsy, otherwise the compiled `$or`-regex clause; `none` when the
pattern does not compile. -/
def searchPred : Option String → Option (Patient → Bool)
  | none => some (fun _ => true)
  | some s =>
    if s = "" then some (fun _ => true)
    else (parseItems s).map (fun items => fun p => searchMatches items p)

/-- The `tan_expiry_date ≤ thirty_days` clause: absent when the
`tan_expiring` parameter is falsy.  `thirty_days` stands for the computed
bound `(datetime.now() + timedelta(days=30)).isoformat()`. -/
def tanPred (tan_expiring : Option Bool) (thirty_days : String) (p : Patient) : Bool :=
  if truthyBool tan_expiring then strLe p.tan_expiry_date thirty_days else true

/-- `GET /patients`: both query clauses conjoined (they live in one query
dict); `.to_list(1000)` caps the result at the first 1000 matches in
stored order; `none` models the request failing on an invalid regex
pattern. -/
def get_patients (search : Option String) (tan_expiring : Option Bool)
    (thirty_days : String) (db : DB) : Option (List Patient) :=
  (searchPred search).map (fun sp =>
    (db.patients.filter (fun p => sp p && tanPred tan_expiring thirty_days p)).take 1000)

/-! ## Task endpoints -/

/-- `GET /tasks`: the three optional clauses conjoined; a falsy
`patient_id` (absent or empty) and a falsy `due_today` (absent or
`False`) add no clause; `status`, a non-empty string enum, is truthy
exactly when present.  `today` stands for
`datetime.now(timezone.utc).date().isoformat()`; `.to_list(1000)` caps
the result at the first 1000 matches. -/
def get_tasks (patient_id : Option String) (status : Option TaskStatus)
    (due_today : Option Bool) (today : String) (db : DB) : List Task :=
  (db.tasks.filter (fun t =>
    (match patient_id with
      | some s => if s = "" then true else decide (t.patient_id = s)
      | none => true) &&
    (match status with
      | some st => decide (t.status = st)
      | none => true) &&
    (if truthyBool due_today then decide (t.due_date = some today) else true))).take 1000

/-- The `$set` document of `complete_task` applied to a task. -/
def completeSet (now : String) (t : Task) : Task :=
  { t with status := TaskStatus.completed, completed_at := some now }

/-- `PUT /tasks/{id}/complete`: `update_one` applies the `$set` to the
first task with the id; the endpoint raises 404 (`none`) when
`modified_count == 0`, which happens both when no document matched and
when the matched document was left unchanged by the `$set`. -/
def complete_task (tid now : String) (db : DB) : Option DB :=
  let db2 : DB :=
    { db with tasks :=
        updateFirst (fun t => decide (t.id = tid)) (completeSet now) db.tasks }
  match db.tasks.find? (fun t => decide (t.id = tid)) with
  | none => none
  | some t => if completeSet now t = t then none else some db2

/-! ## Report endpoints -/

structure DailyCallReport where
  daily_tasks : List Task
  callbacks_needed : List ContactLog
  expiring_tans : List Patient
  total_items : Nat
deriving DecidableEq

/-- The daily report's task query: due today and not completed (`$ne`). -/
def dueTodayPred (today : String) (t : Task) : Bool :=
  decide (t.due_date = some today) && !decide (t.status = TaskStatus.completed)

/-- The daily report's contact-log query: flagged for follow-up with
`follow_up_date ≤ today` (`$lte` never matches a `None` date). -/
def callbackPred (today : String) (l : ContactLog) : Bool :=
  l.follow_up_needed &&
    (match l.follow_up_date with | some d => strLe d today | none => false)

/-- The daily report's patient query: `tan_expiry_date ≤ thirty_days`. -/
def expiringPred (thirty_days : String) (p : Patient) : Bool :=
  strLe p.tan_expiry_date thirty_days

/-- `GET /reports/daily-calls`: the three queries, each capped by
`.to_list(1000)` at its first 1000 matches; `total_items` adds the three
returned list lengths. -/
def get_daily_call_report (today thirty_days : String) (db : DB) : DailyCallReport :=
  let daily_tasks := (db.tasks.filter (dueTodayPred today)).take 1000
  let callback_logs := (db.contact_logs.filter (callbackPred today)).take 1000
  let expiring := (db.patients.filter (expiringPred thirty_days)).take 1000
  { daily_tasks := daily_tasks
    callbacks_needed := callback_logs
    expiring_tans := expiring
    total_items := daily_tasks.length + callback_logs.length + expiring.length }

structure MonthlySummary where
  total_patients : Nat
  new_patients : Nat
  billed_patients : Nat
  unable_to_contact : Nat
  medicaid_issues : Nat
  month : String
deriving DecidableEq

/-- Prefix test on character lists (plain equality). -/
def isPrefixB : List Char → List Char → Bool
  | [], _ => true
  | _ :: _, [] => false
  | a :: as, b :: bs => decide (a = b) && isPrefixB as bs

/-- The anchored month filter `{"$regex": f"^{current_month}"}`: a
`YYYY-MM` month string has no metacharacters, so the anchored pattern is
exactly a string-prefix test. -/
def monthMatch (current_month field : String) : Bool :=
  isPrefixB current_month.toList field.toList

/-- `GET /reports/monthly-summary`: `current_month` stands for
`datetime.now().strftime(...)` in `YYYY-MM` form; each count is a
`count_documents` over one collection, and `medicaid_issues` counts the
patients with `medicaid_eligible == False` with no date clause at all. -/
def get_monthly_summary (current_month : String) (db : DB) : MonthlySummary :=
  { total_patients := db.patients.length
    new_patients :=
      (db.patients.filter (fun p => monthMatch current_month p.created_at)).length
    billed_patients :=
      (db.patients.filter (fun p =>
        match p.last_billing_date with
        | some d => monthMatch current_month d
        | none => false)).length
    unable_to_contact :=
      (db.contact_logs.filter (fun l =>
        (decide (l.outcome = ContactOutcome.no_answer) ||
          decide (l.outcome = ContactOutcome.disconnected)) &&
          monthMatch current_month l.contact_date)).length
    medicaid_issues := (db.patients.filter (fun p => !p.medicaid_eligible)).length
    month := current_month }

/-! ## Literal substring matching (what the spec demands of the search) -/

/-- The item sequence a pattern of plain characters compiles to. -/
def litItems (cs : List Char) : List RItem :=
  cs.map (fun c => ⟨RAtom.ch c, false⟩)

/-- Case-folded prefix test on character lists. -/
def isPrefixCI : List Char → List Char → Bool
  | [], _ => true
  | _ :: _, [] => false
  | a :: as, b :: bs => chEqCI a b && isPrefixCI as bs

/-- Case-insensitive literal containment: `needle` occurs in `hay`. -/
def containsCI (hay needle : List Char) : Bool :=
  (List.range (hay.length + 1)).any (fun k => isPrefixCI needle (hay.drop k))

/-- Case-sensitive literal containment: `needle` occurs in `hay`. -/
def containsLit (hay needle : List Char) : Bool :=
  (List.range (hay.length + 1)).any (fun k => isPrefixB needle (hay.drop k))

/-- The PCRE metacharacters: a search text avoiding all of them is read
as a sequence of plain literal characters. -/
def regexMeta : List Char :=
  ['.', '*', '[', ']', '+', '?', '(', ')', '{', '}', '|', '^', '$', '\\']

/-! ## Concrete fixtures for witnesses and counterexamples -/

/-- A sample referring doctor. -/
def drJones : Doctor :=
  { name := "Dr Jones", phone := "601-555-0100", fax := "601-555-0101", address := none }

/-- A stored patient with the given id, names, phone and expiry date and
neutral values elsewhere. -/
def mkPatient (pid fn ln ph tan : String) : Patient :=
  { id := pid
    first_name := fn
    last_name := ln
    phone := ph
    address := "1 Main St"
    height := none
    weight := none
    icd10_codes := ["R32"]
    doctor := drJones
    current_tan := "TAN-1"
    tan_expiry_date := tan
    medicaid_id := "MID-1"
    medicaid_eligible := true
    last_billing_date := none
    products := ["diapers"]
    notes := ""
    created_at := "2026-10-01T00:00:00+00:00"
    updated_at := "2026-10-01T00:00:00+00:00" }

/-- The all-`None` partial update (every field omitted). -/
def emptyUpdate : PatientUpdate :=
  ⟨none, none, none, none, none, none, none, none, none, none, none, none, none,
    none, none⟩

def aliceW : Patient := mkPatient "p1" "Alice" "Walker" "601-555-0102" "2026-12-01"

def dbC1 : DB := ⟨[aliceW], [], []⟩

def updPhone : PatientUpdate := { emptyUpdate with phone := some "601-555-0199" }

/-- A task already completed, its completion stamp equal to the clock
reading used in the counterexample call. -/
def doneTask : Task :=
  { id := "t1"
    patient_id := "p1"
    task_type := TaskType.call_patient
    title := "call patient"
    description := ""
    assigned_to := "admin"
    status := TaskStatus.completed
    due_date := some "2026-10-12"
    created_at := "2026-10-01T00:00:00+00:00"
    completed_at := some "2026-10-12T09:00:00+00:00" }

def dbC2 : DB := ⟨[], [doneTask], []⟩

/-- A pending task with the same shape, for the amended claim's witness. -/
def pendingTask : Task := { doneTask with id := "t2", status := TaskStatus.pending, completed_at := none }

def dbC2w : DB := ⟨[], [pendingTask], []⟩

def aliceC3 : Patient := mkPatient "p3" "Alice" "Smith" "5551234" "2026-12-01"

def dbC3 : DB := ⟨[aliceC3], [], []⟩

/-- A valid creation input for the create/getById round trip. -/
def pcBob : PatientCreate :=
  { first_name := "Bob"
    last_name := "Nguyen"
    phone := "601-555-0188"
    address := "2 Oak St"
    height := some "70in"
    weight := some "180lb"
    icd10_codes := ["N39.0"]
    doctor := drJones
    current_tan := "TAN-9"
    tan_expiry_date := "2026-11-15"
    medicaid_id := "MID-9"
    medicaid_eligible := true
    products := ["underpads"]
    notes := "new" }

def pat20 : Patient := mkPatient "p20" "Cara" "Lee" "601-555-0120" "2026-11-01"

def pat40 : Patient := mkPatient "p40" "Dan" "Lau" "601-555-0140" "2026-11-21"

def dbC5 : DB := ⟨[pat20, pat40], [], []⟩

def smithP : Patient := mkPatient "p7" "Eve" "Smith" "601-555-0170" "2026-11-01"

def dbC7w : DB := ⟨[smithP], [], []⟩

def bracketP : Patient := mkPatient "p8" "a[y]xb" "qq" "777" "2026-12-01"

def dbC7c : DB := ⟨[bracketP], [], []⟩

/-- A patient whose TAN expires within the bound, stored 1000 times to
fill the result cap. -/
def expP1 : Patient := mkPatient "e1" "Gia" "Ma" "601-555-0111" "2026-11-01"

/-- A distinct matching patient stored behind the first 1000. -/
def expP2 : Patient := { expP1 with id := "e2" }

def dbBigP : DB := ⟨List.replicate 1000 expP1 ++ [expP2], [], []⟩

/-- A pending task due today, stored 1000 times to fill the result cap. -/
def dueT1 : Task :=
  { id := "d1"
    patient_id := "p1"
    task_type := TaskType.call_patient
    title := "call patient"
    description := ""
    assigned_to := "admin"
    status := TaskStatus.pending
    due_date := some "2026-10-12"
    created_at := "2026-10-01T00:00:00+00:00"
    completed_at := none }

/-- A distinct matching task stored behind the first 1000. -/
def dueT2 : Task := { dueT1 with id := "d2" }

def dbBigT : DB := ⟨[], List.replicate 1000 dueT1 ++ [dueT2], []⟩

/-- A patient whose three optional fields all hold values. -/
def fullP : Patient :=
  { mkPatient "p9" "Fay" "Ochoa" "601-555-0109" "2026-12-01" with
      height := some "64in", weight := some "150lb",
      last_billing_date := some "2026-09-01" }

def dbC9 : DB := ⟨[fullP], [], []⟩

def updNotes : PatientUpdate := { emptyUpdate with notes := some "called back" }

/-- The store after the C9 witness update. -/
def dbC9b : DB :=
  { dbC9 with patients :=
      (updateFirst (fun p => decide (p.id = "p9"))
        (fun p => mergePatient p updNotes "2026-10-12T10:00:00+00:00") dbC9.patients) }

/-! ## Store-primitive lemmas -/

theorem find?_updateFirst (pred : α → Bool) (g : α → α) (l : List α) (a : α)
    (hg : ∀ x, pred x = true → pred (g x) = true)
    (h : l.find? pred = some a) :
    (updateFirst pred g l).find? pred = some (g a) := by
  induction l with
  | nil => simp [List.find?] at h
  | cons x xs ih =>
    by_cases hx : pred x = true
    · rw [List.find?_cons_of_pos _ hx] at h
      cases h
      rw [updateFirst, if_pos hx, List.find?_cons_of_pos _ (hg _ hx)]
    · rw [List.find?_cons_of_neg _ hx] at h
      rw [updateFirst, if_neg hx, List.find?_cons_of_neg _ hx]
      exact ih h

theorem find?_append_of_none (pred : α → Bool) (l1 l2 : List α)
    (h : l1.find? pred = none) :
    (l1 ++ l2).find? pred = l2.find? pred := by
  induction l1 with
  | nil => simp
  | cons x xs ih =>
    by_cases hx : pred x = true
    · rw [List.find?_cons_of_pos _ hx] at h; cases h
    · rw [List.find?_cons_of_neg _ hx] at h
      rw [List.cons_append, List.find?_cons_of_neg _ hx]
      exact ih h

theorem uuidStr_ne_empty (n : Nat) : uuidStr n ≠ "" := by
  unfold uuidStr
  intro h
  have h2 := congrArg String.data h
  simp at h2

/-- Key shape of a successful `update_patient`: the entity returned is
the merge of the first stored match, and the store holds that merge. -/
theorem update_patient_found (pid : String) (u : PatientUpdate) (now : String)
    (db : DB) (prev : Patient)
    (hfind : db.patients.find? (fun p => decide (p.id = pid)) = some prev) :
    update_patient pid u now db =
      some (mergePatient prev u now,
        { db with patients :=
            (updateFirst (fun p => decide (p.id = pid))
              (fun p => mergePatient p u now) db.patients) }) := by
  have hg : ∀ p : Patient, decide (p.id = pid) = true →
      decide ((mergePatient p u now).id = pid) = true := by
    intro p hp
    simpa [mergePatient] using hp
  have h2 := find?_updateFirst (fun p => decide (p.id = pid))
    (fun p => mergePatient p u now) db.patients prev hg hfind
  simp [update_patient, hfind, h2]

/-! ## C1: partial update merges exactly the non-null fields -/

/-- C1.  For every existing patient id and partial input, `update_patient`
returns the stored document re-read after the merge; every field absent
(`None`) in the partial input keeps its previous value, the update
timestamp is refreshed, and the identifier is unchanged. -/
theorem update_patient_merges_exactly_nonnull (pid : String) (u : PatientUpdate)
    (now : String) (db : DB) (prev : Patient)
    (hfind : db.patients.find? (fun p => decide (p.id = pid)) = some prev) :
    ∃ db2 : DB,
      update_patient pid u now db = some (mergePatient prev u now, db2)
      ∧ get_patient pid db2 = some (mergePatient prev u now)
      ∧ (mergePatient prev u now).updated_at = now
      ∧ (mergePatient prev u now).id = prev.id
      ∧ (u.first_name = none → (mergePatient prev u now).first_name = prev.first_name)
      ∧ (u.last_name = none → (mergePatient prev u now).last_name = prev.last_name)
      ∧ (u.phone = none → (mergePatient prev u now).phone = prev.phone)
      ∧ (u.address = none → (mergePatient prev u now).address = prev.address)
      ∧ (u.height = none → (mergePatient prev u now).height = prev.height)
      ∧ (u.weight = none → (mergePatient prev u now).weight = prev.weight)
      ∧ (u.icd10_codes = none → (mergePatient prev u now).icd10_codes = prev.icd10_codes)
      ∧ (u.doctor = none → (mergePatient prev u now).doctor = prev.doctor)
      ∧ (u.current_tan = none → (mergePatient prev u now).current_tan = prev.current_tan)
      ∧ (u.tan_expiry_date = none →
          (mergePatient prev u now).tan_expiry_date = prev.tan_expiry_date)
      ∧ (u.medicaid_id = none → (mergePatient prev u now).medicaid_id = prev.medicaid_id)
      ∧ (u.medicaid_eligible = none →
          (mergePatient prev u now).medicaid_eligible = prev.medicaid_eligible)
      ∧ (u.last_billing_date = none →
          (mergePatient prev u now).last_billing_date = prev.last_billing_date)
      ∧ (u.products = none → (mergePatient prev u now).products = prev.products)
      ∧ (u.notes = none → (mergePatient prev u now).notes = prev.notes) := by
  have hg : ∀ p : Patient, decide (p.id = pid) = true →
      decide ((mergePatient p u now).id = pid) = true := by
    intro p hp
    simpa [mergePatient] using hp
  have h2 := find?_updateFirst (fun p => decide (p.id = pid))
    (fun p => mergePatient p u now) db.patients prev hg hfind
  refine ⟨_, update_patient_found pid u now db prev hfind, ?_, rfl, rfl, ?_, ?_, ?_,
    ?_, ?_, ?_, ?_, ?_, ?_, ?_, ?_, ?_, ?_, ?_, ?_⟩
  · simpa [get_patient] using h2
  all_goals intro hf
  all_goals simp [mergePatient, hf]

/-- Witness for C1 at a concrete store and partial input. -/
theorem update_patient_merges_exactly_nonnull_witness :
    dbC1.patients.find? (fun p => decide (p.id = "p1")) = some aliceW
      ∧ (update_patient "p1" updPhone "2026-10-12T09:00:00+00:00" dbC1).isSome = true := by
  have h := update_patient_merges_exactly_nonnull "p1" updPhone
    "2026-10-12T09:00:00+00:00" dbC1 aliceW (by decide)
  obtain ⟨db2, hupd, -⟩ := h
  exact ⟨by decide, by rw [hupd]; rfl⟩

/-! ## C2: task completion and the modified-count check -/

/-- C2 counterexample.  A task with the given id exists in the store, yet
`complete_task` raises 404: the task is already completed with exactly
the current timestamp, so the `$set` modifies zero documents and the
endpoint misreads `modified_count == 0` as not-found. -/
theorem complete_task_counterexample :
    (dbC2.tasks.find? (fun t => decide (t.id = "t1"))).isSome = true
      ∧ complete_task "t1" "2026-10-12T09:00:00+00:00" dbC2 = none := by decide

/-- C2 amended.  `complete_task` fails with 404 exactly when the update
modified zero documents: no stored task has the id, or the first task
with that id already carries status completed and the current completion
stamp; in every other case it succeeds, setting the first matching
task's status to completed and stamping its completion time. -/
theorem complete_task_modified_count (tid now : String) (db : DB) :
    (complete_task tid now db = none ↔
      ∀ t, db.tasks.find? (fun x => decide (x.id = tid)) = some t → completeSet now t = t)
    ∧ ∀ t, db.tasks.find? (fun x => decide (x.id = tid)) = some t →
        completeSet now t ≠ t →
        complete_task tid now db =
          some { db with tasks :=
            (updateFirst (fun x => decide (x.id = tid)) (completeSet now) db.tasks) }
        ∧ ({ db with tasks :=
              (updateFirst (fun x => decide (x.id = tid)) (completeSet now) db.tasks) } :
            DB).tasks.find? (fun x => decide (x.id = tid)) = some (completeSet now t) := by
  constructor
  · cases hfind : db.tasks.find? (fun x => decide (x.id = tid)) with
    | none => simp [complete_task, hfind]
    | some t =>
      by_cases heq : completeSet now t = t
      · simp [complete_task, hfind, heq]
      · simp [complete_task, hfind, heq]
  · intro t hfind hne
    have hg : ∀ x : Task, decide (x.id = tid) = true →
        decide ((completeSet now x).id = tid) = true := by
      intro x hx
      simpa [completeSet] using hx
    refine ⟨by simp [complete_task, hfind, hne], ?_⟩
    exact find?_updateFirst _ _ db.tasks t hg hfind

/-- Witness for C2's amended claim: completing a pending task succeeds
and stores the completed, stamped task. -/
theorem complete_task_modified_count_witness :
    complete_task "t2" "2026-10-12T09:00:00+00:00" dbC2w =
      some { dbC2w with tasks :=
        (updateFirst (fun x => decide (x.id = "t2"))
          (completeSet "2026-10-12T09:00:00+00:00") dbC2w.tasks) } :=
  ((complete_task_modified_count "t2" "2026-10-12T09:00:00+00:00" dbC2w).2 pendingTask
    (by decide) (by decide)).1

/-! ## C3: the search text is passed to the store unescaped -/

/-- C3.  `get_patients` feeds the raw search text to the store as a
regex pattern: the search `".*"` returns the stored patient although
none of the patient's first name, last name or phone contains the
literal string `".*"` — the claimed escaping does not happen. -/
theorem get_patients_search_unescaped :
    get_patients (some ".*") none "" dbC3 = some [aliceC3]
      ∧ containsLit "Alice".toList ".*".toList = false
      ∧ containsLit "Smith".toList ".*".toList = false
      ∧ containsLit "5551234".toList ".*".toList = false := by decide

/-! ## C4: create followed by getById round-trips -/

/-- C4.  Creating a patient and immediately reading the returned id back
yields the very entity `create_patient` returned (all field values
identical), and the generated identifier is a non-empty string.  The
hypothesis says the freshly generated id does not collide with a stored
one, the generation scheme's premise. -/
theorem create_patient_then_get (data : PatientCreate) (n : Nat) (now : String)
    (db : DB) (hfresh : ∀ q ∈ db.patients, q.id ≠ uuidStr n) :
    get_patient (create_patient data n now db).1.id (create_patient data n now db).2 =
        some (create_patient data n now db).1
      ∧ (create_patient data n now db).1.id ≠ "" := by
  constructor
  · simp only [create_patient, get_patient]
    rw [find?_append_of_none]
    · apply List.find?_cons_of_pos
      simp
    · refine List.find?_eq_none.mpr ?_
      intro x hx
      simpa [patientOfCreate] using hfresh x hx
  · simp only [create_patient, patientOfCreate]
    exact uuidStr_ne_empty n

/-- Witness for C4 at a concrete input and the empty store. -/
theorem create_patient_then_get_witness :
    (∀ q ∈ (⟨[], [], []⟩ : DB).patients, q.id ≠ uuidStr 0)
      ∧ (get_patient (create_patient pcBob 0 "2026-10-12T09:00:00+00:00" ⟨[], [], []⟩).1.id
            (create_patient pcBob 0 "2026-10-12T09:00:00+00:00" ⟨[], [], []⟩).2 =
          some (create_patient pcBob 0 "2026-10-12T09:00:00+00:00" ⟨[], [], []⟩).1
        ∧ (create_patient pcBob 0 "2026-10-12T09:00:00+00:00" ⟨[], [], []⟩).1.id ≠ "") :=
  ⟨by simp, create_patient_then_get pcBob 0 "2026-10-12T09:00:00+00:00" ⟨[], [], []⟩ (by simp)⟩

/-! ## C5: the expiring-TAN filter -/

set_option maxRecDepth 100000

/-- C5 counterexample.  A 1001st matching patient: it is stored, its
expiry is within the bound, yet the endpoint's reply — capped by
`.to_list(1000)` — omits it, so the list does not return exactly the
matching patients. -/
theorem get_patients_tan_cap_counterexample :
    expP2 ∈ dbBigP.patients
      ∧ strLe expP2.tan_expiry_date "2026-11-11T14:30:00.123456" = true
      ∧ get_patients none (some true) "2026-11-11T14:30:00.123456" dbBigP =
          some (List.replicate 1000 expP1)
      ∧ expP2 ∉ List.replicate 1000 expP1 := by decide

/-- C5 amended.  With the `tan_expiring` flag set, the patient list is
the first 1000, in stored order, of the patients whose
`tan_expiry_date` is at most the computed thirty-day bound — exactly the
matching patients whenever at most 1000 match; concretely, with today
2026-10-12 (bound 2026-11-11), the patient expiring 20 days out
(2026-11-01) is returned and the one expiring 40 days out (2026-11-21)
is not. -/
theorem get_patients_tan_expiring :
    (∀ (db : DB) (thirty_days : String),
      get_patients none (some true) thirty_days db =
        some ((db.patients.filter (fun p => strLe p.tan_expiry_date thirty_days)).take 1000))
      ∧ (∀ (db : DB) (thirty_days : String),
          (db.patients.filter (fun p => strLe p.tan_expiry_date thirty_days)).length ≤ 1000 →
          get_patients none (some true) thirty_days db =
            some (db.patients.filter (fun p => strLe p.tan_expiry_date thirty_days)))
      ∧ get_patients none (some true) "2026-11-11T14:30:00.123456" dbC5 = some [pat20] := by
  refine ⟨?_, ?_, by decide⟩
  · intro db thirty_days
    simp [get_patients, searchPred, tanPred, truthyBool]
  · intro db thirty_days hlen
    have h1 : get_patients none (some true) thirty_days db =
        some ((db.patients.filter (fun p => strLe p.tan_expiry_date thirty_days)).take 1000) := by
      simp [get_patients, searchPred, tanPred, truthyBool]
    rw [h1, List.take_of_length_le hlen]

/-! ## C6: the daily call report -/

/-- C6 counterexample.  A 1001st task due today and not completed: it is
stored and matches the daily-tasks query, yet the report's
`.to_list(1000)`-capped bucket omits it, so the bucket is not the set of
all such tasks. -/
theorem daily_call_report_cap_counterexample :
    dueT2 ∈ dbBigT.tasks
      ∧ dueT2.due_date = some "2026-10-12"
      ∧ dueT2.status ≠ TaskStatus.completed
      ∧ (get_daily_call_report "2026-10-12" "2026-11-11" dbBigT).daily_tasks =
          List.replicate 1000 dueT1
      ∧ dueT2 ∉ List.replicate 1000 dueT1 := by decide

/-- C6 amended.  Each bucket of the daily report is the first 1000, in
stored order, of its matching documents — tasks due today and not
completed, contact logs flagged for follow-up with follow-up date at
most today, patients expiring within the thirty-day bound — and is
exactly the matching set whenever at most 1000 documents match;
`total_items` is always the plain sum of the three returned lengths,
with no deduplication. -/
theorem daily_call_report_buckets (today thirty_days : String) (db : DB) :
    (get_daily_call_report today thirty_days db).daily_tasks =
        (db.tasks.filter (dueTodayPred today)).take 1000
      ∧ (get_daily_call_report today thirty_days db).callbacks_needed =
        (db.contact_logs.filter (callbackPred today)).take 1000
      ∧ (get_daily_call_report today thirty_days db).expiring_tans =
        (db.patients.filter (expiringPred thirty_days)).take 1000
      ∧ ((db.tasks.filter (dueTodayPred today)).length ≤ 1000 →
          ∀ t : Task, t ∈ (get_daily_call_report today thirty_days db).daily_tasks ↔
            t ∈ db.tasks ∧ t.due_date = some today ∧ t.status ≠ TaskStatus.completed)
      ∧ ((db.contact_logs.filter (callbackPred today)).length ≤ 1000 →
          ∀ l : ContactLog,
            l ∈ (get_daily_call_report today thirty_days db).callbacks_needed ↔
              l ∈ db.contact_logs ∧ l.follow_up_needed = true ∧
                ∃ d, l.follow_up_date = some d ∧ strLe d today = true)
      ∧ ((db.patients.filter (expiringPred thirty_days)).length ≤ 1000 →
          ∀ p : Patient,
            p ∈ (get_daily_call_report today thirty_days db).expiring_tans ↔
              p ∈ db.patients ∧ strLe p.tan_expiry_date thirty_days = true)
      ∧ (get_daily_call_report today thirty_days db).total_items =
          (get_daily_call_report today thirty_days db).daily_tasks.length +
            (get_daily_call_report today thirty_days db).callbacks_needed.length +
            (get_daily_call_report today thirty_days db).expiring_tans.length := by
  refine ⟨rfl, rfl, rfl, fun hlen t => ?_, fun hlen l => ?_, fun hlen p => ?_, rfl⟩
  · rw [show (get_daily_call_report today thirty_days db).daily_tasks =
        (db.tasks.filter (dueTodayPred today)).take 1000 from rfl,
      List.take_of_length_le hlen]
    simp [dueTodayPred, List.mem_filter, and_assoc]
  · rw [show (get_daily_call_report today thirty_days db).callbacks_needed =
        (db.contact_logs.filter (callbackPred today)).take 1000 from rfl,
      List.take_of_length_le hlen]
    cases hd : l.follow_up_date with
    | none => simp [callbackPred, List.mem_filter, hd]
    | some d => simp [callbackPred, List.mem_filter, hd, and_assoc]
  · rw [show (get_daily_call_report today thirty_days db).expiring_tans =
        (db.patients.filter (expiringPred thirty_days)).take 1000 from rfl,
      List.take_of_length_le hlen]
    simp [expiringPred, List.mem_filter]

/-! ## C7: the search as literal case-insensitive substring matching -/

theorem litItems_nil : litItems [] = [] := rfl

theorem litItems_cons (c : Char) (cs : List Char) :
    litItems (c :: cs) = ⟨RAtom.ch c, false⟩ :: litItems cs := rfl

theorem matchesHereF_lit : ∀ (f : Nat) (pat s : List Char),
    pat.length + s.length < f →
    matchesHereF f (litItems pat) s = isPrefixCI pat s := by
  intro f
  induction f with
  | zero => intro pat s h; omega
  | succ f ih =>
    intro pat s h
    cases pat with
    | nil => cases s <;> rfl
    | cons c cs =>
      cases s with
      | nil => rfl
      | cons b bs =>
        have hrec := ih cs bs (by simp at h; omega)
        simp only [litItems] at hrec
        simp [litItems, matchesHereF, atomMatches, isPrefixCI, hrec]

theorem matchesHere_lit (pat s : List Char) :
    matchesHere (litItems pat) s = isPrefixCI pat s := by
  apply matchesHereF_lit
  simp [litItems]

theorem regexSearch_lit (pat s : List Char) :
    regexSearch (litItems pat) s = containsCI s pat := by
  simp [regexSearch, containsCI, matchesHere_lit]

theorem parseItemsF_lit : ∀ (f : Nat) (l : List Char),
    (∀ c ∈ l, c ≠ '.' ∧ c ≠ '*' ∧ c ≠ '[') → l.length < f →
    parseItemsF f l = some (litItems l) := by
  intro f
  induction f with
  | zero => intro l _ h; omega
  | succ f ih =>
    intro l hl hlen
    cases l with
    | nil => rfl
    | cons c cs =>
      obtain ⟨hd, hs, hb⟩ := hl c (by simp)
      have hrest : ¬cs.head? = some '*' := by
        cases cs with
        | nil => simp
        | cons d ds =>
          simp
          exact (hl d (by simp)).2.1
      have hcs := ih cs (fun d hdm => hl d (by simp [hdm])) (by simp at hlen; omega)
      simp [parseItemsF, hs, hb, hd, hrest, hcs, litItems_cons]

/-- C7 amended.  For search texts free of regex metacharacters (the code
does not escape them, so texts containing them are read as patterns, not
literally), the patient list matches exactly the patients one of whose
first name, last name or phone contains the text up to case, and the
search clause composes with the expiring-TAN clause by logical AND; the
reply carries the first 1000 matches, the store's fixed result cap. -/
theorem get_patients_search_case_insensitive (s : String) (tan_expiring : Option Bool)
    (thirty_days : String) (db : DB)
    (hne : s ≠ "") (hmeta : ∀ c ∈ s.toList, c ∉ regexMeta) :
    get_patients (some s) tan_expiring thirty_days db =
      some ((db.patients.filter (fun p =>
        (containsCI p.first_name.toList s.toList
          || containsCI p.last_name.toList s.toList
          || containsCI p.phone.toList s.toList)
        && tanPred tan_expiring thirty_days p)).take 1000) := by
  have hlit : parseItems s = some (litItems s.toList) := by
    refine parseItemsF_lit _ _ ?_ (Nat.lt_succ_self _)
    intro c hc
    have hm := hmeta c hc
    simp [regexMeta] at hm
    exact ⟨hm.1, hm.2.1, hm.2.2.1⟩
  simp [get_patients, searchPred, hne, hlit, searchMatches, regexSearch_lit]

/-- Witness for C7's amended claim: the literal lower-case search
`"smith"` combined with the expiring-TAN flag returns the stored patient
whose last name is `"Smith"`. -/
theorem get_patients_search_case_insensitive_witness :
    get_patients (some "smith") (some true) "2026-12-31" dbC7w = some [smithP] :=
  (get_patients_search_case_insensitive "smith" (some true) "2026-12-31" dbC7w
    (by decide) (by decide)).trans (by decide)

/-- C7 counterexample.  For the search text `"[y]x"`, the stored
patient's first name contains the text literally (even case-sensitively),
yet the endpoint returns nothing: the text is interpreted as a pattern,
so the original claim's for-every-search-text reading fails. -/
theorem get_patients_search_contains_mismatch :
    containsCI "a[y]xb".toList "[y]x".toList = true
      ∧ get_patients (some "[y]x") none "" dbC7c = some [] := by decide

/-! ## C8: medicaidIssues is a full-table count -/

/-- C8.  `medicaid_issues` counts exactly the stored patients with
`medicaid_eligible = false` over the whole collection: the count is the
same whatever the current month, i.e. it is not scoped to it. -/
theorem monthly_summary_medicaid_full_table (current_month other_month : String)
    (db : DB) :
    (get_monthly_summary current_month db).medicaid_issues =
        (db.patients.filter (fun p => decide (p.medicaid_eligible = false))).length
      ∧ (get_monthly_summary current_month db).medicaid_issues =
        (get_monthly_summary other_month db).medicaid_issues := by
  constructor
  · have hfun : (fun p : Patient => decide (p.medicaid_eligible = false)) =
        (fun p : Patient => !p.medicaid_eligible) := by
      funext p
      cases hp : p.medicaid_eligible <;> simp [hp]
    simp [get_monthly_summary, hfun]
  · rfl

/-! ## C9: a set optional field can never be cleared by update -/

/-- C9.  No partial update can clear an optional field that holds a
value: when the stored patient's `height`, `weight` or
`last_billing_date` is non-null, the entity returned by any successful
`update_patient` still holds a non-null value there (null fields of the
partial input are dropped from the merge, so they leave the stored value;
non-null ones overwrite it with another non-null value). -/
theorem update_patient_never_clears (pid : String) (u : PatientUpdate) (now : String)
    (db : DB) (prev ret : Patient) (db2 : DB)
    (hfind : db.patients.find? (fun p => decide (p.id = pid)) = some prev)
    (hupd : update_patient pid u now db = some (ret, db2)) :
    (prev.height.isSome = true → ret.height.isSome = true)
      ∧ (prev.weight.isSome = true → ret.weight.isSome = true)
      ∧ (prev.last_billing_date.isSome = true → ret.last_billing_date.isSome = true) := by
  rw [update_patient_found pid u now db prev hfind] at hupd
  simp only [Option.some.injEq, Prod.mk.injEq] at hupd
  obtain ⟨h1, -⟩ := hupd
  subst h1
  refine ⟨?_, ?_, ?_⟩ <;> intro hp
  · cases hu : u.height with
    | some v => simp [mergePatient, hu]
    | none => simpa [mergePatient, hu] using hp
  · cases hu : u.weight with
    | some v => simp [mergePatient, hu]
    | none => simpa [mergePatient, hu] using hp
  · cases hu : u.last_billing_date with
    | some v => simp [mergePatient, hu]
    | none => simpa [mergePatient, hu] using hp

/-- Witness for C9 at a concrete store whose patient has all three
optional fields set. -/
theorem update_patient_never_clears_witness :
    (fullP.height.isSome = true →
        (mergePatient fullP updNotes "2026-10-12T10:00:00+00:00").height.isSome = true)
      ∧ (fullP.weight.isSome = true →
        (mergePatient fullP updNotes "2026-10-12T10:00:00+00:00").weight.isSome = true)
      ∧ (fullP.last_billing_date.isSome = true →
        (mergePatient fullP updNotes
          "2026-10-12T10:00:00+00:00").last_billing_date.isSome = true) :=
  update_patient_never_clears "p9" updNotes "2026-10-12T10:00:00+00:00" dbC9 fullP
    (mergePatient fullP updNotes "2026-10-12T10:00:00+00:00") dbC9b
    (by decide) (by decide)

/-! ## C10: falsy filter parameters are treated as absent -/

/-- C10.  At the list endpoints a falsy parameter adds no filter clause:
an empty search string, an explicit `tan_expiring=false` and an explicit
`due_today=false` each produce exactly the result of the call with the
parameter omitted. -/
theorem falsy_filters_match_absent (db : DB) (tan_expiring : Option Bool)
    (thirty_days : String) (search : Option String) (today : String)
    (patient_id : Option String) (status : Option TaskStatus) :
    get_patients (some "") tan_expiring thirty_days db =
        get_patients none tan_expiring thirty_days db
      ∧ get_patients search (some false) thirty_days db =
        get_patients search none thirty_days db
      ∧ get_tasks patient_id status (some false) today db =
        get_tasks patient_id status none today db := by
  refine ⟨?_, ?_, ?_⟩
  · simp [get_patients, searchPred]
  · simp [get_patients, tanPred, truthyBool]
  · simp [get_tasks, truthyBool]

end Server
